import Mathlib

/-!
Verification development for the GeoGuessr automation extension.

The JavaScript sources are shallowly embedded:
* parsed JSON structures become the inductive type `Json`;
* JavaScript numbers become `JSNum` (finite rationals plus NaN and the
  infinities), so that `Number.isFinite` and `toFixed(5)` can be modelled;
* stateful handlers (coordinate merge, capture bookkeeping, screenshot
  saving) become explicit state-passing functions;
* browser primitives consulted by the code (`JSON.parse`, `atob`,
  `chrome.debugger` results, backend responses) are modelled as explicit
  inputs or as executable reference implementations.
-/

namespace GeoViz

/-! ## JavaScript numbers -/

/-- A JavaScript number: NaN, +Infinity, -Infinity, or a finite value
(modelled as a rational). -/
inductive JSNum where
  | nan
  | posInf
  | negInf
  | num (q : ℚ)
deriving DecidableEq, Repr

namespace JSNum

/-- `Number.isFinite`. -/
def isFinite : JSNum → Bool
  | num _ => true
  | _ => false

/-- The rational value of a finite JS number (0 for the non-finite ones,
which are never used through this accessor). -/
def toQ : JSNum → ℚ
  | num q => q
  | _ => 0

end JSNum

/-- Render a natural number padded to five digits, for the fractional part
of `toFixed(5)`. -/
def padFive (n : ℕ) : String :=
  let s := toString n
  let l := s.length
  if l < 5 then String.mk (List.replicate (5 - l) '0') ++ s else s

/-- `toFixed(5)` on a nonnegative rational `a/b`: the integer closest to
`q * 10^5`, ties towards the larger integer (the ECMAScript rule) — that
is `⌊q * 10^5 + 1/2⌋ = (2 * a * 10^5 + b) / (2 * b)` in natural-number
division — split into integer and fractional digits. -/
def toFixedFiveNonneg (q : ℚ) : String :=
  let m : ℕ := (2 * q.num.toNat * 100000 + q.den) / (2 * q.den)
  toString (m / 100000) ++ "." ++ padFive (m % 100000)

/-- `Number.prototype.toFixed(5)` as used for coordinate signatures. -/
def toFixedFive : JSNum → String
  | .nan => "NaN"
  | .posInf => "Infinity"
  | .negInf => "-Infinity"
  | .num q => if q < 0 then "-" ++ toFixedFiveNonneg (-q) else toFixedFiveNonneg q

/-! ## JSON values -/

/-- A parsed JSON value (the shape handled by the extraction code). -/
inductive Json where
  | null
  | bool (b : Bool)
  | num (q : ℚ)
  | str (s : String)
  | arr (xs : List Json)
  | obj (kvs : List (String × Json))

namespace Json

/-- `value?.[i]` — optional-chained index access on a parsed JSON value.
Only arrays yield elements; any other shape (or an out-of-range index)
yields `none` (JavaScript `undefined`). -/
def idx? : Json → ℕ → Option Json
  | arr xs, i => xs.get? i
  | _, _ => none

/-- The numeric value of a JSON node, if it is a number. -/
def asNum? : Json → Option ℚ
  | num q => some q
  | _ => none

end Json

/-! ## Coordinate deep search

`findCoordinates` (background.js) scans the parsed structure depth-first
and takes elements 2 and 3 of the first array of length ≥ 4 whose elements
at indices 2 and 3 are both numbers.  `findCoordinatesDeep`
(content-script.js) additionally requires lat ∈ [-90, 90] and
lon ∈ [-180, 180] before accepting the array. -/

/-- The match test of `findCoordinates` (background.js:229-233): array of
length ≥ 4 whose elements 2 and 3 are numbers. -/
def coordHit (xs : List Json) : Option (ℚ × ℚ) :=
  if 4 ≤ xs.length then
    match (xs.get? 2).bind Json.asNum?, (xs.get? 3).bind Json.asNum? with
    | some la, some lo => some (la, lo)
    | _, _ => none
  else none

/-- The match test of `findCoordinatesDeep` (content-script.js:1789-1797):
as `coordHit`, but the pair must also lie in valid lat/lon range. -/
def coordHitInRange (xs : List Json) : Option (ℚ × ℚ) :=
  match coordHit xs with
  | some (la, lo) =>
      if -90 ≤ la ∧ la ≤ 90 ∧ -180 ≤ lo ∧ lo ≤ 180 then some (la, lo) else none
  | none => none

mutual

/-- `findCoordinates` (background.js:223-251): first depth-first hit of
`coordHit`, testing each array node before its entries, and object values
in key order. -/
def findCoordinates : Json → Option (ℚ × ℚ)
  | .arr xs =>
      match coordHit xs with
      | some p => some p
      | none => findCoordinatesList xs
  | .obj kvs => findCoordinatesKVs kvs
  | _ => none

def findCoordinatesList : List Json → Option (ℚ × ℚ)
  | [] => none
  | x :: rest =>
      match findCoordinates x with
      | some p => some p
      | none => findCoordinatesList rest

def findCoordinatesKVs : List (String × Json) → Option (ℚ × ℚ)
  | [] => none
  | kv :: rest =>
      match findCoordinates kv.2 with
      | some p => some p
      | none => findCoordinatesKVs rest

end

mutual

/-- `findCoordinatesDeep` (content-script.js:1781-1814): as
`findCoordinates`, but a candidate array is accepted only when the pair is
within valid lat/lon range. -/
def findCoordinatesDeep : Json → Option (ℚ × ℚ)
  | .arr xs =>
      match coordHitInRange xs with
      | some p => some p
      | none => findCoordinatesDeepList xs
  | .obj kvs => findCoordinatesDeepKVs kvs
  | _ => none

def findCoordinatesDeepList : List Json → Option (ℚ × ℚ)
  | [] => none
  | x :: rest =>
      match findCoordinatesDeep x with
      | some p => some p
      | none => findCoordinatesDeepList rest

def findCoordinatesDeepKVs : List (String × Json) → Option (ℚ × ℚ)
  | [] => none
  | kv :: rest =>
      match findCoordinatesDeep kv.2 with
      | some p => some p
      | none => findCoordinatesDeepKVs rest

end

/-! ### Depth-first specification

`arraysPreorder` lists every array occurring in a JSON value in
depth-first order (a node before its entries, entries and object values in
order).  The extraction functions are proved to return the first array in
this order passing their match test. -/

mutual

/-- All arrays of a JSON value in depth-first (preorder) traversal
order. -/
def arraysPreorder : Json → List (List Json)
  | .arr xs => xs :: arraysPreorderList xs
  | .obj kvs => arraysPreorderKVs kvs
  | _ => []

def arraysPreorderList : List Json → List (List Json)
  | [] => []
  | x :: rest => arraysPreorder x ++ arraysPreorderList rest

def arraysPreorderKVs : List (String × Json) → List (List Json)
  | [] => []
  | kv :: rest => arraysPreorder kv.2 ++ arraysPreorderKVs rest

end

/-- Helper: the first `some` produced by `f` over a list. -/
def firstSome (f : List Json → Option (ℚ × ℚ)) :
    List (List Json) → Option (ℚ × ℚ)
  | [] => none
  | xs :: rest =>
      match f xs with
      | some p => some p
      | none => firstSome f rest


/-! ## String primitives

JavaScript string operations used by the parsing layer, modelled over the
character list of a `String`. -/

/-- Index of the first occurrence of a character (JS `indexOf`, with
`none` for `-1`). -/
def jsIndexOf (s : String) (c : Char) : Option ℕ :=
  s.toList.indexOf? c

/-- Index of the last occurrence of a character (JS `lastIndexOf`). -/
def jsLastIndexOf (s : String) (c : Char) : Option ℕ :=
  match (s.toList.reverse).indexOf? c with
  | some i => some (s.toList.length - 1 - i)
  | none => none

/-- JS `slice(a, b)` for nonnegative indices: characters from `a`
(inclusive) to `b` (exclusive). -/
def jsSlice (s : String) (a b : ℕ) : String :=
  String.mk ((s.toList.drop a).take (b - a))

/-- Substring containment (JS `includes`). -/
def containsSubList (sub : List Char) : List Char → Bool
  | [] => sub.isEmpty
  | c :: rest => sub.isPrefixOf (c :: rest) || containsSubList sub rest

/-- `s.includes(sub)`. -/
def containsSub (s sub : String) : Bool :=
  containsSubList sub.toList s.toList

/-- `s.startsWith(t)`. -/
def jsStartsWith (s t : String) : Bool :=
  t.toList.isPrefixOf s.toList

/-- `s.trim()`: strip leading and trailing whitespace. -/
def jsTrim (s : String) : String :=
  String.mk
    (((s.toList.dropWhile Char.isWhitespace).reverse.dropWhile
        Char.isWhitespace).reverse)

/-- `s.toLowerCase()`. -/
def jsToLower (s : String) : String :=
  String.mk (s.toList.map Char.toLower)

/-! ## JSON.parse

An executable model of `JSON.parse` for the value shapes the captured
payloads use (null, booleans, numbers, plain strings, arrays, objects).
Numbers are read exactly into `ℚ`.  The parser is fuelled by input length
(each nesting level consumes at least one character). -/

/-- JSON whitespace. -/
def isJsonWs (c : Char) : Bool :=
  c = ' ' || c = '\n' || c = '\t' || c = '\r'

/-- Drop leading JSON whitespace. -/
def skipWs : List Char → List Char
  | [] => []
  | c :: rest => if isJsonWs c then skipWs rest else c :: rest

/-- Read a run of decimal digits, returning its value, the number of
digits, and the rest. -/
def readDigits : List Char → ℕ → ℕ → (ℕ × ℕ × List Char)
  | c :: rest, acc, n =>
      if c.isDigit then readDigits rest (acc * 10 + (c.toNat - 48)) (n + 1)
      else (acc, n, c :: rest)
  | [], acc, n => (acc, n, [])

/-- Parse a JSON number into an exact rational. -/
def readNumber (l : List Char) : Option (ℚ × List Char) :=
  let (neg, l₁) :=
    match l with
    | '-' :: rest => (true, rest)
    | _ => (false, l)
  let (intPart, intDigits, l₂) := readDigits l₁ 0 0
  if intDigits = 0 then none
  else
    let (mantissa, fracDigits, l₃) :=
      match l₂ with
      | '.' :: rest =>
          let (fracPart, fd, r) := readDigits rest 0 0
          (intPart * 10 ^ fd + fracPart, fd, r)
      | _ => (intPart, 0, l₂)
    if l₂ ≠ l₃ && fracDigits = 0 then none
    else
      let expoCont : Option (List Char) :=
        match l₃ with
        | 'e' :: rest => some rest
        | 'E' :: rest => some rest
        | _ => none
      let (expo, l₄) : ℤ × List Char :=
        match expoCont with
        | none => ((0 : ℤ), l₃)
        | some rest =>
            let (esign, r₁) :=
              match rest with
              | '+' :: r => ((1 : ℤ), r)
              | '-' :: r => ((-1 : ℤ), r)
              | _ => ((1 : ℤ), rest)
            let (e, _, r₂) := readDigits r₁ 0 0
            (esign * (e : ℤ), r₂)
      let mantZ : ℤ := if neg then -(mantissa : ℤ) else (mantissa : ℤ)
      let q : ℚ :=
        if 0 ≤ expo then
          mkRat (mantZ * ((10 ^ expo.toNat : ℕ) : ℤ)) (10 ^ fracDigits)
        else mkRat mantZ (10 ^ fracDigits * 10 ^ (-expo).toNat)
      some (q, l₄)

/-- Parse a JSON string body after the opening quote (no escape support:
a backslash aborts the parse). -/
def readStringBody : List Char → Option (String × List Char)
  | [] => none
  | c :: rest =>
      if c = '"' then some ("", rest)
      else if c = '\\' then none
      else
        match readStringBody rest with
        | some (s, r) => some (String.mk (c :: s.toList), r)
        | none => none

mutual

/-- Parse one JSON value. -/
def parseValue : ℕ → List Char → Option (Json × List Char)
  | 0, _ => none
  | fuel + 1, l =>
      match skipWs l with
      | 'n' :: 'u' :: 'l' :: 'l' :: rest => some (.null, rest)
      | 't' :: 'r' :: 'u' :: 'e' :: rest => some (.bool true, rest)
      | 'f' :: 'a' :: 'l' :: 's' :: 'e' :: rest => some (.bool false, rest)
      | '"' :: rest =>
          match readStringBody rest with
          | some (s, r) => some (.str s, r)
          | none => none
      | '[' :: rest =>
          (match skipWs rest with
           | ']' :: r => some (.arr [], r)
           | other =>
               match parseItems fuel other with
               | some (xs, r) => some (.arr xs, r)
               | none => none)
      | c :: rest =>
          if c = Char.ofNat 123 then
            match skipWs rest with
            | d :: r =>
                if d = Char.ofNat 125 then some (.obj [], r)
                else
                  (match parseMembers fuel (d :: r) with
                   | some (kvs, r₂) => some (.obj kvs, r₂)
                   | none => none)
            | [] => none
          else
            match readNumber (c :: rest) with
            | some (q, r) => some (.num q, r)
            | none => none
      | [] => none

/-- Parse comma-separated array items up to the closing bracket. -/
def parseItems : ℕ → List Char → Option (List Json × List Char)
  | 0, _ => none
  | fuel + 1, l =>
      match parseValue fuel l with
      | some (v, rest) =>
          (match skipWs rest with
           | ',' :: r =>
               match parseItems fuel r with
               | some (xs, r₂) => some (v :: xs, r₂)
               | none => none
           | ']' :: r => some ([v], r)
           | _ => none)
      | none => none

/-- Parse comma-separated object members up to the closing brace. -/
def parseMembers : ℕ → List Char → Option (List (String × Json) × List Char)
  | 0, _ => none
  | fuel + 1, l =>
      match skipWs l with
      | '"' :: rest =>
          (match readStringBody rest with
           | some (k, r) =>
               (match skipWs r with
                | ':' :: r₂ =>
                    (match parseValue fuel r₂ with
                     | some (v, r₃) =>
                         (match skipWs r₃ with
                          | ',' :: r₄ =>
                              (match parseMembers fuel r₄ with
                               | some (kvs, r₅) => some ((k, v) :: kvs, r₅)
                               | none => none)
                          | d :: r₄ =>
                              if d = Char.ofNat 125 then some ([(k, v)], r₄)
                              else none
                          | [] => none)
                     | none => none)
                | _ => none)
           | none => none)
      | _ => none

end

/-- `JSON.parse`: parse a full value and require only whitespace after it
(anything else raises, modelled as `none`). -/
def jsonParse (s : String) : Option Json :=
  match parseValue (s.toList.length + 1) s.toList with
  | some (v, rest) => if skipWs rest = [] then some v else none
  | none => none

/-! ## Response-body parsing

The four body parsers of the capture pipeline. -/

/-- `CALLBACK_PREFIX` (geo-bridge.js:5, content-script.js:1702,
part_000:2744): the JSONP comment-prefixed callback wrapper marker. -/
def CALLBACK_HEADER : String := "/**/_callbacks____"

/-- `parseBody` (geo-bridge.js:7-20): requires the wrapper marker, then
parses the text between the first `(` and the last `)`; any failure yields
`null` — there is no fallback. -/
def parseBody (body : String) : Option Json :=
  if body = "" || !(jsStartsWith body CALLBACK_HEADER) then none
  else
    match jsIndexOf body '(', jsLastIndexOf body ')' with
    | some s, some e => jsonParse (jsSlice body (s + 1) e)
    | _, _ => none

/-- `stripJSONPWrapper` (background.js:160-167): the text between the
first `(` and the last `)` when both exist in that order, else the text
unchanged. -/
def stripJSONPWrapper (text : String) : String :=
  match jsIndexOf text '(', jsLastIndexOf text ')' with
  | some first, some last =>
      if first < last then jsSlice text (first + 1) last else text
  | _, _ => text

/-- The bracket-scanning fallback inside `parseGeoPayload`
(background.js:175-183): parse the substring from the first `[` to the
last `]`. -/
def bracketSliceParse (trimmed : String) : Option Json :=
  match jsIndexOf trimmed '[', jsLastIndexOf trimmed ']' with
  | some firstBracket, some lastBracket =>
      if firstBracket < lastBracket then
        jsonParse (jsSlice trimmed firstBracket (lastBracket + 1))
      else none
  | _, _ => none

/-- `parseGeoPayload` (background.js:169-186): strip the JSONP wrapper
from the trimmed text, try `JSON.parse`, then fall back to the
first-`[`-to-last-`]` substring. -/
def parseGeoPayload (text : String) : Option Json :=
  if text = "" then none
  else
    let trimmed := stripJSONPWrapper (jsTrim text)
    match jsonParse trimmed with
    | some v => some v
    | none => bracketSliceParse trimmed

/-- `parseGeoPhotoResponse` (content-script.js:1701-1718), parsing step:
requires the wrapper marker, then parses between the first `(` and the
last `)`; no fallback. -/
def parseGeoPhotoResponseV1 (body : String) : Option Json :=
  if body = "" || !(jsStartsWith body CALLBACK_HEADER) then none
  else
    match jsIndexOf body '(', jsLastIndexOf body ')' with
    | some start, some stop => jsonParse (jsSlice body (start + 1) stop)
    | _, _ => none

/-- `parseGeoPhotoResponse` (part_000:2738-2778), parsing step: JSONP
wrapper if the marker is present, else raw `JSON.parse`, else the greedy
regex match from the first `[` to the last `]`. -/
def parseGeoPhotoPayloadV2 (body : String) : Option Json :=
  if body = "" then none
  else
    let fromJsonp : Option Json :=
      if jsStartsWith body CALLBACK_HEADER then
        match jsIndexOf body '(', jsLastIndexOf body ')' with
        | some start, some stop => jsonParse (jsSlice body (start + 1) stop)
        | _, _ => none
      else none
    match fromJsonp with
    | some v => some v
    | none =>
        match jsonParse body with
        | some v => some v
        | none =>
            match jsIndexOf body '[', jsLastIndexOf body ']' with
            | some fb, some lb =>
                if fb < lb then jsonParse (jsSlice body fb (lb + 1)) else none
            | _, _ => none

/-! ## Fixed-index extraction -/

/-- Optional-chained index path through a parsed JSON value. -/
def jpath (v : Json) : List ℕ → Option Json
  | [] => some v
  | i :: rest =>
      match v.idx? i with
      | some w => jpath w rest
      | none => none

/-- The standard fixed-index latitude of `extractMetadataFromArray`
(content-script.js:1729-1736, part_000:2799-2806): `data[1][0][5][0][1][0][2]`
when it is a number. -/
def standardPathLat (data : Json) : Option ℚ :=
  (jpath data [1, 0, 5, 0, 1, 0, 2]).bind Json.asNum?

/-- The standard fixed-index longitude: `data[1][0][5][0][1][0][3]`. -/
def standardPathLon (data : Json) : Option ℚ :=
  (jpath data [1, 0, 5, 0, 1, 0, 3]).bind Json.asNum?

/-- The coordinate component of `extractMetadataFromArray`
(content-script.js:1720-1778, part_000:2790-2848): the standard fixed-index
pair when both entries are numbers, else the deep search
(`findCoordinatesDeep`); `null` when both strategies fail.  (The address,
country and photo-id extraction of the source function is independent of
the coordinates and not modelled.) -/
def extractMetadataCoords (data : Json) : Option (ℚ × ℚ) :=
  match standardPathLat data, standardPathLon data with
  | some la, some lo => some (la, lo)
  | _, _ => findCoordinatesDeep data

/-- `String(value)` parses as a number containing a decimal point
(`isDecimal`, part_000:45-48), for a parsed JSON node: true exactly for
non-integer numbers. -/
def isDecimalNode : Option Json → Bool
  | some (.num q) => q.den ≠ 1
  | _ => false

/-- The fixed-index extraction of the window message listener
(part_000:203-243): primary path `arr[1][0][5][0][1][0][2..3]` (numbers),
fallback `arr[1][5][0][1][0][2..3]` under `isDecimal`. -/
def windowListenerCoords (arr : Json) : Option (ℚ × ℚ) :=
  match (jpath arr [1, 0, 5, 0, 1, 0, 2]).bind Json.asNum?,
        (jpath arr [1, 0, 5, 0, 1, 0, 3]).bind Json.asNum? with
  | some la, some lo => some (la, lo)
  | _, _ =>
      let fallbackLat := jpath arr [1, 5, 0, 1, 0, 2]
      let fallbackLon := jpath arr [1, 5, 0, 1, 0, 3]
      if isDecimalNode fallbackLat && isDecimalNode fallbackLon then
        match fallbackLat.bind Json.asNum?, fallbackLon.bind Json.asNum? with
        | some la, some lo => some (la, lo)
        | _, _ => none
      else none

/-! ## Association-list state -/

/-- `Map.get` on a tab-keyed association list. -/
def alistGet {α : Type} (l : List (ℕ × α)) (k : ℕ) : Option α :=
  match l.find? (fun p => p.1 = k) with
  | some p => some p.2
  | none => none

/-- `Map.set`. -/
def alistSet {α : Type} (l : List (ℕ × α)) (k : ℕ) (v : α) : List (ℕ × α) :=
  (k, v) :: l.filter (fun p => p.1 ≠ k)

/-- `Map.delete`. -/
def alistErase {α : Type} (l : List (ℕ × α)) (k : ℕ) : List (ℕ × α) :=
  l.filter (fun p => p.1 ≠ k)


/-! ## Coordinate merge: background `emitGeoMetadata` (multi-tab) -/

/-- A coordinate observation as handed to `emitGeoMetadata` /
`GEO_METADATA` (background.js:386-396): lat/lon may be absent, and are
otherwise arbitrary JS numbers. -/
structure GeoMetadata where
  lat : Option JSNum
  lon : Option JSNum
  place : Option String
  language : Option String
  source : String
deriving DecidableEq, Repr

/-- One component of the signature template
`${metadata.lat?.toFixed?.(5)}` : `"undefined"` when the field is absent,
else `toFixed(5)`. -/
def sigPart : Option JSNum → String
  | none => "undefined"
  | some x => toFixedFive x

/-- The per-tab suppression signature of `emitGeoMetadata`
(background.js:267): `"{lat:5dp}:{lon:5dp}"` — the source tag is not part
of it. -/
def geoSignature (m : GeoMetadata) : String :=
  sigPart m.lat ++ ":" ++ sigPart m.lon

/-- Background multi-tab capture state (background.js:137-140):
per-tab last signature and per-tab latest metadata. -/
structure BackgroundState where
  tabCoordinateSignatures : List (ℕ × String)
  tabMetadataCache : List (ℕ × GeoMetadata)
deriving DecidableEq, Repr

/-- The empty background state. -/
def BackgroundState.init : BackgroundState := ⟨[], []⟩

/-- Result of one `emitGeoMetadata` call: the new state and whether the
observation was forwarded (`sendGeoMetadataToTab`). -/
structure EmitResult where
  state : BackgroundState
  delivered : Bool
deriving DecidableEq, Repr

/-- `emitGeoMetadata` (background.js:266-289): compute the signature; if
it equals the tab's last signature, suppress; otherwise record the
signature, cache the metadata for the tab, persist and forward it.
No validation of lat/lon is performed. -/
def emitGeoMetadata (st : BackgroundState) (tabId : ℕ) (m : GeoMetadata) :
    EmitResult :=
  let signature := geoSignature m
  let lastSig := alistGet st.tabCoordinateSignatures tabId
  if signature ≠ "" ∧ some signature = lastSig then ⟨st, false⟩
  else
    ⟨⟨alistSet st.tabCoordinateSignatures tabId signature,
      alistSet st.tabMetadataCache tabId m⟩, true⟩

/-! ## Coordinate merge: page-context `notifyCoordsUpdate` -/

/-- Result of one `notifyCoordsUpdate` call (part_000:64-99): the new
`lastSentCoordsSignature` and whether a `SEND_COORDS` message was sent. -/
structure NotifyResult where
  lastSig : Option String
  sent : Bool
deriving DecidableEq, Repr

/-- `notifyCoordsUpdate` (part_000:64-99): reject non-finite lat/lon;
suppress when the signature `"{lat:5dp}:{lon:5dp}:{context}"` equals the
last sent one; otherwise record it and send. -/
def notifyCoordsUpdate (lastSentCoordsSignature : Option String)
    (latValue lonValue : JSNum) (context : String) : NotifyResult :=
  if !(latValue.isFinite && lonValue.isFinite) then
    ⟨lastSentCoordsSignature, false⟩
  else
    let signature :=
      toFixedFive latValue ++ ":" ++ toFixedFive lonValue ++ ":" ++ context
    if some signature = lastSentCoordsSignature then
      ⟨lastSentCoordsSignature, false⟩
    else ⟨some signature, true⟩

/-! ## Coordinate merge: content-script `GEO_METADATA` handler -/

/-- The `latestStreetViewMetadata` record as written by the handler
(part_000:2602-2609); the country fields are derived from the address and
not modelled. -/
structure SVMeta where
  lat : ℚ
  lon : ℚ
  address : Option String
deriving DecidableEq, Repr

/-- `Number(x)` for an optional JS number: an absent field (`undefined`)
becomes NaN. -/
def toNumber : Option JSNum → JSNum
  | none => .nan
  | some x => x

/-- `payload?.place || null`. -/
def orNull : Option String → Option String
  | some s => if s = "" then none else some s
  | none => none

/-- The `GEO_METADATA` branch of `listenForDebuggerMetadata`
(part_000:2588-2622): accept the payload and overwrite
`latestStreetViewMetadata` exactly when `Number(lat)` and `Number(lon)`
are both finite; otherwise leave the state unchanged.  No range check is
performed. -/
def listenGeoMetadata (latest : Option SVMeta) (payload : GeoMetadata) :
    Option SVMeta :=
  let latValue := toNumber payload.lat
  let lonValue := toNumber payload.lon
  if latValue.isFinite && lonValue.isFinite then
    some ⟨latValue.toQ, lonValue.toQ, orNull payload.place⟩
  else latest

/-! ## `startGeoCapture` (multi-tab) -/

/-- Multi-tab capture bookkeeping used by `startGeoCapture`
(background.js:137-139). -/
structure CaptureState where
  activeCaptureTabs : List ℕ
  tabCoordinateSignatures : List (ℕ × String)
deriving DecidableEq, Repr

/-- Browser responses consulted during a capture start: the
`chrome.debugger.attach` error (if any) and the `Network.enable` error
(if any). -/
structure DebuggerEnv where
  attachError : Option String
  networkEnableError : Option String
deriving DecidableEq, Repr

/-- Outcome of a `startGeoCapture` call: the resolved/rejected result and
whether a debugger attach was attempted at all. -/
structure StartCaptureOutcome where
  result : Except String CaptureState
  attachAttempted : Bool

/-- `startGeoCapture` (background.js:291-327): missing tab throws; a tab
already in the active set resolves immediately without attaching; an
attach error containing "Another debugger" records the tab and resolves;
any other attach error, or a `Network.enable` error, rejects with that
message; success records the tab and clears its stale signature. -/
def startGeoCapture (st : CaptureState) (tabId : ℕ) (env : DebuggerEnv) :
    StartCaptureOutcome :=
  if tabId = 0 then ⟨.error "Kein Tab für GeoCapture verfügbar.", false⟩
  else if tabId ∈ st.activeCaptureTabs then ⟨.ok st, false⟩
  else
    ⟨match env.attachError with
      | some msg =>
          if containsSub msg "Another debugger" then
            .ok { st with activeCaptureTabs := tabId :: st.activeCaptureTabs }
          else .error msg
      | none =>
          match env.networkEnableError with
          | some msg => .error msg
          | none =>
              .ok ⟨tabId :: st.activeCaptureTabs,
                   alistErase st.tabCoordinateSignatures tabId⟩,
     true⟩

/-! ## `saveCurrentScreenshot` -/

/-- The `SAVE_SCREENSHOT` response observed by the content script. -/
structure ScreenshotResponse where
  success : Bool
  error : Option String
  status : Option ℤ
deriving DecidableEq, Repr

/-- The environment of one save attempt: whether `captureImageBase64`
succeeds, and the messaging result (`none` = the message channel threw). -/
structure SaveEnv where
  captureOk : Bool
  response : Option ScreenshotResponse
deriving DecidableEq, Repr

/-- How one `saveCurrentScreenshot` call ended. -/
inductive SaveResult where
  | skipped
  | captureError
  | sendError
  | disabled
  | failed (msg : String)
  | ok
deriving DecidableEq, Repr

/-- Observable outcome of one `saveCurrentScreenshot` call: the
`screenshotApiAvailable` flag afterwards, the result, and whether an image
was captured / the backend contacted during the call. -/
structure SaveOutcome where
  available : Bool
  result : SaveResult
  captured : Bool
  contacted : Bool
deriving DecidableEq, Repr

/-- `saveCurrentScreenshot` (content-script.js:738-784,
part_000:1424-1470): return `null` immediately while the flag is down;
propagate capture/messaging exceptions; on an unsuccessful response whose
status is 404 or whose lowercased message contains "not found", clear the
flag and return `null`; otherwise throw the message; on success return the
data.  Nothing ever sets the flag back to `true`. -/
def saveCurrentScreenshot (screenshotApiAvailable : Bool) (env : SaveEnv) :
    SaveOutcome :=
  if !screenshotApiAvailable then ⟨false, .skipped, false, false⟩
  else if !env.captureOk then ⟨true, .captureError, false, false⟩
  else
    match env.response with
    | none => ⟨true, .sendError, true, true⟩
    | some resp =>
        if resp.success then ⟨true, .ok, true, true⟩
        else
          let message := resp.error.getD "Screenshot speichern fehlgeschlagen."
          let normalizedMessage := jsToLower message
          if resp.status = some 404 || containsSub normalizedMessage "not found"
          then ⟨false, .disabled, true, true⟩
          else ⟨true, .failed message, true, true⟩

/-- A sequence of save attempts threaded through the flag. -/
def runSaves (available : Bool) : List SaveEnv → Bool × List SaveOutcome
  | [] => (available, [])
  | env :: rest =>
      let o := saveCurrentScreenshot available env
      let (fin, os) := runSaves o.available rest
      (fin, o :: os)

/-! ## Round counter -/

/-- `ROUND_LIMIT` (content-script.js:4, part_000). -/
def ROUND_LIMIT : ℕ := 5

/-- The round increment/wrap of the scrape loop (part_000:2256-2259):
`currentRound += 1; if (currentRound > ROUND_LIMIT) currentRound = 1`. -/
def scrapeRoundStep (currentRound : ℕ) : ℕ :=
  let r := currentRound + 1
  if r > ROUND_LIMIT then 1 else r

/-- The round-counter effect of `handleResultTransition`
(content-script.js:985-998, part_000:1673-1686): on a non-final round with
a successful next-round click, increment; otherwise `startNextGame` resets
the counter to 1. -/
def handleResultTransitionRound (isFinalRound advanced : Bool)
    (currentRound : ℕ) : ℕ :=
  if !isFinalRound && advanced then currentRound + 1 else 1

/-! ## `getTargetCoordinates` and the Auto Play round -/

/-- The prediction fields consulted by `getTargetCoordinates`. -/
structure Prediction where
  lat : Option ℚ
  lon : Option ℚ
deriving DecidableEq, Repr

/-- `getTargetCoordinates` (content-script.js:1092-1100,
part_000:1780-1788): the prediction's pair when both entries are non-null,
else the captured street-view pair, else `(0, 0)`. -/
def getTargetCoordinates (prediction : Option Prediction)
    (latestStreetViewMetadata : Option SVMeta) : ℚ × ℚ :=
  match prediction with
  | some p =>
      match p.lat, p.lon with
      | some la, some lo => (la, lo)
      | _, _ =>
          match latestStreetViewMetadata with
          | some m => (m.lat, m.lon)
          | none => (0, 0)
  | none =>
      match latestStreetViewMetadata with
      | some m => (m.lat, m.lon)
      | none => (0, 0)

/-- The actions of one Auto Play round body (part_000:2314-2360,
content-script.js:1412-1474), on the path where the prediction request
succeeds: coordinates are exported exactly when street-view metadata is
present, and the guess is placed at `getTargetCoordinates` and submitted
unconditionally — there is no skip branch. -/
structure RoundActions where
  sentCoords : Bool
  placedGuessAt : Option (ℚ × ℚ)
  submittedGuess : Bool
deriving DecidableEq, Repr

/-- The dataflow of one Auto Play round (see `RoundActions`). -/
def autoPlayRoundActions (latestStreetViewMetadata : Option SVMeta)
    (prediction : Option Prediction) : RoundActions :=
  { sentCoords := latestStreetViewMetadata.isSome
  , placedGuessAt :=
      some (getTargetCoordinates prediction latestStreetViewMetadata)
  , submittedGuess := true }

/-! ## Image validity (`isInvalidImage`) -/

/-- The value of a base64 alphabet character (`atob` rejects anything
else). -/
def b64Val (c : Char) : Option ℕ :=
  let n := c.toNat
  if 65 ≤ n ∧ n ≤ 90 then some (n - 65)
  else if 97 ≤ n ∧ n ≤ 122 then some (n - 71)
  else if 48 ≤ n ∧ n ≤ 57 then some (n + 4)
  else if c = '+' then some 62
  else if c = '/' then some 63
  else none

/-- Map every character to its sextet, failing on the first invalid one
(accumulator style, so that evaluation is iterative). -/
def b64ValsAux : List Char → List ℕ → Option (List ℕ)
  | [], acc => some acc.reverse
  | c :: rest, acc =>
      match b64Val c with
      | some v => b64ValsAux rest (v :: acc)
      | none => none

/-- The sextets of a character list. -/
def b64Vals (cs : List Char) : Option (List ℕ) := b64ValsAux cs []

/-- Reassemble decoded bytes from sextets (groups of 4 → 3 bytes, with a
final partial group of 2 or 3), accumulator style. -/
def b64BytesAux : List ℕ → List ℕ → List ℕ
  | a :: b :: c :: d :: rest, acc =>
      b64BytesAux rest
        (((c % 4) * 64 + d) :: ((b % 16) * 16 + c / 4) :: (a * 4 + b / 16) ::
          acc)
  | [a, b, c], acc => (((b % 16) * 16 + c / 4) :: (a * 4 + b / 16) :: acc).reverse
  | [a, b], acc => ((a * 4 + b / 16) :: acc).reverse
  | _, acc => acc.reverse

/-- The bytes of a sextet list. -/
def b64Bytes (vs : List ℕ) : List ℕ := b64BytesAux vs []

/-- `atob`: strip trailing `=` padding, reject invalid characters and a
length ≡ 1 (mod 4), decode the rest to bytes. -/
def atobBytes (s : String) : Option (List ℕ) :=
  let cs := (s.toList.reverse.dropWhile (fun c => c = '=')).reverse
  if cs.length % 4 = 1 then none
  else (b64Vals cs).map b64Bytes

/-- Helper for the sampling loops: keep an element when the countdown hits
zero, then restart the countdown at `step - 1` (accumulator style). -/
def everyNthAux (step : ℕ) : List ℕ → ℕ → List ℕ → List ℕ
  | [], _, acc => acc.reverse
  | x :: rest, 0, acc => everyNthAux step rest (step - 1) (x :: acc)
  | _ :: rest, k + 1, acc => everyNthAux step rest k acc

/-- Every `step`-th element of a list, starting with the head (the
`for (i = 0; i < len; i += step)` sampling loops). -/
def everyNth (step : ℕ) (l : List ℕ) : List ℕ := everyNthAux step l 0 []

/-- The darkness sample of `isInvalidImage` (part_000:720-725): every 10th
byte. -/
def darknessSample (bytes : List ℕ) : List ℕ := everyNth 10 bytes

/-- The uniformity sample (part_000:734-737): every 5th byte of the first
`min (length, 500)` bytes. -/
def uniformitySample (bytes : List ℕ) : List ℕ :=
  everyNth 5 (bytes.take (min bytes.length 500))

/-- The distinct coarse brightness buckets (`Math.floor(byte / 10)`) of
the uniformity sample. -/
def brightnessBuckets (bytes : List ℕ) : List ℕ :=
  ((uniformitySample bytes).map (fun b => b / 10)).dedup

/-- `isInvalidImage` (part_000:708-749): a short payload is invalid; a
decode failure is caught and treated as valid; more than 80 % dark sampled
bytes, or fewer than 5 distinct coarse brightness buckets, is invalid. -/
def isInvalidImage (base64Data : String) : Bool :=
  if base64Data = "" || base64Data.length < 1000 then true
  else
    match atobBytes (jsSlice base64Data 0 10000) with
    | none => false
    | some bytes =>
        let sampled := darknessSample bytes
        let totalChecked := sampled.length
        let lowCount := (sampled.filter (fun b => b < 30)).length
        if 0 < totalChecked ∧ totalChecked * 4 < lowCount * 5 then true
        else if (brightnessBuckets bytes).length < 5 then true
        else false


/-! ## Concrete test fixtures -/

/-- Whether a prediction carries a usable lat/lon pair
(the first guard of `getTargetCoordinates`). -/
def usableLatLon : Option Prediction → Bool
  | some p => p.lat.isSome && p.lon.isSome
  | none => false

/-- The synthetic target-service body of the spec's extraction scenario,
exactly as written there (its bracket string has eight `[` and nine `]`). -/
def syntheticBody : String :=
  "/**/_callbacks____foo([null,[[null,null,null,null,null,[[null,[[null,[null,null,48.8566,2.3522]]]]]]]]])"

/-- The synthetic body with the unmatched ninth `]` removed, making the
payload well-formed JSON. -/
def syntheticBodyBalanced : String :=
  "/**/_callbacks____foo([null,[[null,null,null,null,null,[[null,[[null,[null,null,48.8566,2.3522]]]]]]]])"

/-- The parse of the balanced synthetic body. -/
def syntheticParsed : Option Json := parseGeoPhotoPayloadV2 syntheticBodyBalanced

/-- A base64 payload of 1000 characters decoding to 750 zero bytes (an
all-black buffer). -/
def zeroImage : String := String.mk (List.replicate 1000 'A')

/-- The byte pattern of the textured test image: twelve bytes spanning
twelve coarse brightness buckets. -/
def texturedBytes : List ℕ :=
  (List.replicate 63 [5, 15, 25, 35, 45, 55, 65, 75, 85, 95, 105, 115]).flatten

/-- A base64 payload of 1008 characters decoding to `texturedBytes`. -/
def texturedImage : String :=
  String.mk (List.replicate 63 "BQ8ZIy03QUtVX2lz".toList).flatten

/-! ## Structural lemmas -/

theorem geoSignature_ne_empty (m : GeoMetadata) : geoSignature m ≠ "" := by
  intro h
  have hl := congrArg String.length h
  simp only [geoSignature, String.length_append] at hl
  simp at hl
  exact absurd hl.1.2 (by decide)

theorem everyNthAux_ne_nil (n : ℕ) (l : List ℕ) (k : ℕ) (acc : List ℕ)
    (h : acc ≠ []) : everyNthAux n l k acc ≠ [] := by
  induction l generalizing k acc with
  | nil => simpa [everyNthAux] using h
  | cons y rest ih =>
      cases k with
      | zero =>
          rw [everyNthAux]
          exact ih _ _ (by simp)
      | succ m =>
          rw [everyNthAux]
          exact ih _ _ h

theorem everyNth_ne_nil (n : ℕ) (l : List ℕ) (h : l ≠ []) :
    everyNth n l ≠ [] := by
  cases l with
  | nil => exact absurd rfl h
  | cons x rest =>
      rw [everyNth, everyNthAux]
      exact everyNthAux_ne_nil n rest (n - 1) [x] (by simp)

theorem mem_everyNthAux (n : ℕ) (l : List ℕ) (x : ℕ) :
    ∀ k acc, x ∈ everyNthAux n l k acc → x ∈ l ∨ x ∈ acc := by
  induction l with
  | nil =>
      intro k acc h
      rw [everyNthAux] at h
      exact Or.inr (List.mem_reverse.mp h)
  | cons y rest ih =>
      intro k acc h
      cases k with
      | zero =>
          rw [everyNthAux] at h
          rcases ih _ _ h with h₁ | h₁
          · exact Or.inl (List.mem_cons_of_mem _ h₁)
          · rcases List.mem_cons.mp h₁ with h₂ | h₂
            · exact Or.inl (by simp [h₂])
            · exact Or.inr h₂
      | succ m =>
          rw [everyNthAux] at h
          rcases ih _ _ h with h₁ | h₁
          · exact Or.inl (List.mem_cons_of_mem _ h₁)
          · exact Or.inr h₁

theorem mem_everyNth (n : ℕ) (l : List ℕ) (x : ℕ) (h : x ∈ everyNth n l) :
    x ∈ l := by
  rcases mem_everyNthAux n l x 0 [] h with h₁ | h₁
  · exact h₁
  · simp at h₁

theorem alistGet_set {α : Type} (l : List (ℕ × α)) (k : ℕ) (v : α) :
    alistGet (alistSet l k v) k = some v := by
  simp [alistGet, alistSet, List.find?]

theorem firstSome_append (f : List Json → Option (ℚ × ℚ))
    (l₁ l₂ : List (List Json)) :
    firstSome f (l₁ ++ l₂) =
      match firstSome f l₁ with
      | some p => some p
      | none => firstSome f l₂ := by
  induction l₁ with
  | nil => simp [firstSome]
  | cons xs rest ih =>
      simp only [List.cons_append, firstSome]
      cases f xs <;> simp [ih]

mutual

theorem findCoordinates_eq_firstSome (v : Json) :
    findCoordinates v = firstSome coordHit (arraysPreorder v) := by
  cases v with
  | arr xs =>
      simp only [findCoordinates, arraysPreorder, firstSome]
      cases coordHit xs <;>
        simp [findCoordinatesList_eq_firstSome xs]
  | obj kvs =>
      simpa [findCoordinates, arraysPreorder] using
        findCoordinatesKVs_eq_firstSome kvs
  | null => rfl
  | bool b => rfl
  | num q => rfl
  | str s => rfl

theorem findCoordinatesList_eq_firstSome (xs : List Json) :
    findCoordinatesList xs = firstSome coordHit (arraysPreorderList xs) := by
  cases xs with
  | nil => rfl
  | cons x rest =>
      simp only [findCoordinatesList, arraysPreorderList, firstSome_append,
        findCoordinates_eq_firstSome x, findCoordinatesList_eq_firstSome rest]

theorem findCoordinatesKVs_eq_firstSome (kvs : List (String × Json)) :
    findCoordinatesKVs kvs = firstSome coordHit (arraysPreorderKVs kvs) := by
  cases kvs with
  | nil => rfl
  | cons kv rest =>
      simp only [findCoordinatesKVs, arraysPreorderKVs, firstSome_append,
        findCoordinates_eq_firstSome kv.2, findCoordinatesKVs_eq_firstSome rest]

end

mutual

theorem findCoordinatesDeep_eq_firstSome (v : Json) :
    findCoordinatesDeep v = firstSome coordHitInRange (arraysPreorder v) := by
  cases v with
  | arr xs =>
      simp only [findCoordinatesDeep, arraysPreorder, firstSome]
      cases coordHitInRange xs <;>
        simp [findCoordinatesDeepList_eq_firstSome xs]
  | obj kvs =>
      simpa [findCoordinatesDeep, arraysPreorder] using
        findCoordinatesDeepKVs_eq_firstSome kvs
  | null => rfl
  | bool b => rfl
  | num q => rfl
  | str s => rfl

theorem findCoordinatesDeepList_eq_firstSome (xs : List Json) :
    findCoordinatesDeepList xs =
      firstSome coordHitInRange (arraysPreorderList xs) := by
  cases xs with
  | nil => rfl
  | cons x rest =>
      simp only [findCoordinatesDeepList, arraysPreorderList, firstSome_append,
        findCoordinatesDeep_eq_firstSome x,
        findCoordinatesDeepList_eq_firstSome rest]

theorem findCoordinatesDeepKVs_eq_firstSome (kvs : List (String × Json)) :
    findCoordinatesDeepKVs kvs =
      firstSome coordHitInRange (arraysPreorderKVs kvs) := by
  cases kvs with
  | nil => rfl
  | cons kv rest =>
      simp only [findCoordinatesDeepKVs, arraysPreorderKVs, firstSome_append,
        findCoordinatesDeep_eq_firstSome kv.2,
        findCoordinatesDeepKVs_eq_firstSome rest]

end

/-! ## Claims -/

/-- Claim C2 (corrected), counterexample: the privileged inspector's
`findCoordinates` performs no range check — on the parsed array
`[1, 1, 200, 200]` it returns `(200, 200)` even though 200 is out of
lat/lon range, while the range-checked deep search of the content script
rejects the same structure. -/
theorem C2_counterexample :
    findCoordinates (.arr [.num 1, .num 1, .num 200, .num 200]) =
      some (200, 200) ∧
    findCoordinatesDeep (.arr [.num 1, .num 1, .num 200, .num 200]) = none := by
  constructor <;> rfl

/-- Claim C2 (amended): `findCoordinates` returns the elements at indices
2 and 3 of the first array, in depth-first array-traversal order, that has
length ≥ 4 and numeric elements at indices 2 and 3 — with no range
check; the variant that additionally requires the pair to be within valid
lat/lon range is `findCoordinatesDeep` in the content script.  Both return
`null` when no such array exists. -/
theorem C2_theorem :
    (∀ v : Json, findCoordinates v = firstSome coordHit (arraysPreorder v)) ∧
    (∀ v : Json,
      findCoordinatesDeep v = firstSome coordHitInRange (arraysPreorder v)) :=
  ⟨findCoordinates_eq_firstSome, findCoordinatesDeep_eq_firstSome⟩

/-- Claim C6 (confirmed): over completed rounds, `currentRound` follows
the sequence 1, 2, 3, 4, 5, 1, 2, … — it increments by exactly 1 per
completed round and resets to 1 exactly after reaching the fixed round
limit of 5, both under the scrape loop's increment/wrap step and under
`handleResultTransition` (final round exactly when the counter has reached
the limit, next-round click successful). -/
theorem C6_theorem :
    (∀ k : ℕ, scrapeRoundStep^[k] 1 = k % 5 + 1) ∧
    (∀ k : ℕ,
      (fun r => handleResultTransitionRound (decide (ROUND_LIMIT ≤ r)) true r)^[k] 1
        = k % 5 + 1) := by
  constructor
  · intro k
    induction k with
    | zero => simp
    | succ n ih =>
        rw [Function.iterate_succ_apply', ih, scrapeRoundStep, ROUND_LIMIT]
        have h5 := Nat.mod_lt n (show 0 < 5 by norm_num)
        by_cases h : n % 5 = 4
        · simp only [h]
          norm_num
          omega
        · have : ¬ (n % 5 + 1 + 1 > 5) := by omega
          simp only [this, if_false]
          omega
  · intro k
    induction k with
    | zero => simp
    | succ n ih =>
        rw [Function.iterate_succ_apply', ih, handleResultTransitionRound,
          ROUND_LIMIT]
        have h5 := Nat.mod_lt n (show 0 < 5 by norm_num)
        by_cases h : n % 5 = 4
        · simp only [h]
          norm_num
          omega
        · have hlt : ¬ (5 ≤ n % 5 + 1) := by omega
          simp only [decide_eq_false hlt, Bool.not_false, Bool.true_and,
            if_true]
          omega

/-- Claim C7 (confirmed): `startGeoCapture` is idempotent — a tab already
in the active-capture set resolves to success with no state change and no
attach attempt; an attach error containing "Another debugger" records the
tab as captured and resolves; and the call rejects exactly when the
browser reports a different attach error or a `Network.enable` error for a
not-yet-captured tab. -/
theorem C7_theorem :
    (∀ (st : CaptureState) (tab : ℕ) (env : DebuggerEnv),
        tab ≠ 0 → tab ∈ st.activeCaptureTabs →
        startGeoCapture st tab env = ⟨.ok st, false⟩) ∧
    (∀ (st : CaptureState) (tab : ℕ) (env : DebuggerEnv) (msg : String),
        tab ≠ 0 → tab ∉ st.activeCaptureTabs →
        env.attachError = some msg →
        containsSub msg "Another debugger" = true →
        (startGeoCapture st tab env).result =
          .ok { st with activeCaptureTabs := tab :: st.activeCaptureTabs }) ∧
    (∀ (st : CaptureState) (tab : ℕ) (env : DebuggerEnv),
        tab ≠ 0 → tab ∉ st.activeCaptureTabs →
        ((∃ e, (startGeoCapture st tab env).result = Except.error e) ↔
          ((∃ msg, env.attachError = some msg ∧
              containsSub msg "Another debugger" = false) ∨
            (env.attachError = none ∧
              ∃ msg, env.networkEnableError = some msg)))) := by
  refine ⟨?_, ?_, ?_⟩
  · intro st tab env htab hmem
    simp [startGeoCapture, htab, hmem]
  · intro st tab env msg htab hmem hatt hshared
    simp [startGeoCapture, htab, hmem, hatt, hshared]
  · intro st tab env htab hmem
    simp only [startGeoCapture, if_neg htab, if_neg hmem]
    cases hatt : env.attachError with
    | some msg =>
        by_cases hsh : containsSub msg "Another debugger" = true
        · simp [hsh]
        · simp only [Bool.not_eq_true] at hsh
          simp [hsh]
    | none =>
        cases hnet : env.networkEnableError with
        | some msg => simp
        | none => simp

/-- Witness for C7 at concrete inputs: tab 2 already active resolves
unchanged; a shared-attachment error on tab 3 resolves recording the tab;
a plain attach denial on tab 3 rejects. -/
theorem C7_witness :
    startGeoCapture ⟨[2], []⟩ 2 ⟨none, none⟩ = ⟨.ok ⟨[2], []⟩, false⟩ ∧
    (startGeoCapture ⟨[2], []⟩ 3
        ⟨some "Another debugger is already attached", none⟩).result =
      .ok ⟨[3, 2], []⟩ ∧
    (∃ e, (startGeoCapture ⟨[2], []⟩ 3
        ⟨some "Cannot attach to this target", none⟩).result =
          Except.error e) := by
  refine ⟨?_, ?_, ?_⟩
  · exact C7_theorem.1 ⟨[2], []⟩ 2 ⟨none, none⟩ (by decide) (by simp)
  · exact C7_theorem.2.1 ⟨[2], []⟩ 3
      ⟨some "Another debugger is already attached", none⟩
      "Another debugger is already attached" (by decide) (by simp) rfl
      (by decide)
  · exact (C7_theorem.2.2 ⟨[2], []⟩ 3
      ⟨some "Cannot attach to this target", none⟩ (by decide) (by simp)).mpr
      (Or.inl ⟨"Cannot attach to this target", rfl, by decide⟩)

/-- Claim C10 (confirmed): when the prediction carries no usable lat/lon
and no street-view metadata has been captured, `getTargetCoordinates`
returns `(0, 0)` and the Auto Play round still places the guess at
`(0, 0)` and submits it — there is no skip branch. -/
theorem C10_theorem (prediction : Option Prediction)
    (h : usableLatLon prediction = false) :
    getTargetCoordinates prediction none = (0, 0) ∧
    autoPlayRoundActions none prediction =
      ⟨false, some (0, 0), true⟩ := by
  have hg : getTargetCoordinates prediction none = (0, 0) := by
    cases prediction with
    | none => rfl
    | some p =>
        cases hla : p.lat with
        | none => simp [getTargetCoordinates, hla]
        | some la =>
            cases hlo : p.lon with
            | none => simp [getTargetCoordinates, hla, hlo]
            | some lo => simp [usableLatLon, hla, hlo] at h
  exact ⟨hg, by simp [autoPlayRoundActions, hg, Option.isSome]⟩

/-- Witness for C10: a prediction with null lat/lon and no metadata leads
to a placed-and-submitted guess at `(0, 0)`. -/
theorem C10_witness :
    getTargetCoordinates (some ⟨none, none⟩) none = (0, 0) ∧
    autoPlayRoundActions none (some ⟨none, none⟩) =
      ⟨false, some (0, 0), true⟩ :=
  C10_theorem (some ⟨none, none⟩) (by decide)


/-- Claim C1 (corrected), counterexample: an out-of-range observation
(lat = 200) is accepted by both merge steps — the background
`emitGeoMetadata` delivers it and caches it for the tab, and the content
script's `GEO_METADATA` handler overwrites `latestStreetViewMetadata`
with it. -/
theorem C1_counterexample :
    (emitGeoMetadata BackgroundState.init 3
        ⟨some (.num 200), some (.num 0), none, none, "debugger"⟩).delivered
      = true ∧
    alistGet (emitGeoMetadata BackgroundState.init 3
        ⟨some (.num 200), some (.num 0), none, none, "debugger"⟩).state.tabMetadataCache
        3 =
      some ⟨some (.num 200), some (.num 0), none, none, "debugger"⟩ ∧
    listenGeoMetadata none
        ⟨some (.num 200), some (.num 0), none, none, "debugger"⟩ =
      some ⟨200, 0, none⟩ := by
  refine ⟨?_, ?_, ?_⟩ <;> decide

/-- Claim C1 (amended): only the content script's `GEO_METADATA` handler
validates, and only finiteness — an observation with non-finite lat or lon
leaves `latestStreetViewMetadata` unchanged; out-of-range finite values
are not rejected by either step, and the background `emitGeoMetadata`
applies any observation whose signature differs from the tab's last one,
without a range or finiteness check. -/
theorem C1_theorem :
    (∀ (latest : Option SVMeta) (payload : GeoMetadata),
        ((toNumber payload.lat).isFinite = false ∨
          (toNumber payload.lon).isFinite = false) →
        listenGeoMetadata latest payload = latest) ∧
    (∀ (st : BackgroundState) (tab : ℕ) (m : GeoMetadata),
        alistGet st.tabCoordinateSignatures tab ≠ some (geoSignature m) →
        (emitGeoMetadata st tab m).delivered = true ∧
        alistGet (emitGeoMetadata st tab m).state.tabMetadataCache tab =
          some m) := by
  constructor
  · intro latest payload h
    rcases h with h | h <;> simp [listenGeoMetadata, h]
  · intro st tab m h
    have hcond : ¬ (geoSignature m ≠ "" ∧
        some (geoSignature m) = alistGet st.tabCoordinateSignatures tab) := by
      rintro ⟨-, h2⟩
      exact h h2.symm
    simp only [emitGeoMetadata, if_neg hcond]
    exact ⟨by simp, by simp [alistGet_set]⟩

/-- Witness for C1: a NaN-latitude payload leaves the handler state
unchanged, and a fresh in-range observation is delivered and cached by the
background step. -/
theorem C1_witness :
    listenGeoMetadata (some ⟨1, 2, none⟩)
        ⟨some .nan, some (.num 0), none, none, "debugger"⟩ =
      some ⟨1, 2, none⟩ ∧
    (emitGeoMetadata BackgroundState.init 5
        ⟨some (.num 1), some (.num 2), none, none, "debugger"⟩).delivered
      = true ∧
    alistGet (emitGeoMetadata BackgroundState.init 5
        ⟨some (.num 1), some (.num 2), none, none, "debugger"⟩).state.tabMetadataCache
        5 =
      some ⟨some (.num 1), some (.num 2), none, none, "debugger"⟩ := by
  refine ⟨C1_theorem.1 _ _ (Or.inl rfl), ?_, ?_⟩
  · exact (C1_theorem.2 BackgroundState.init 5 _ (by decide)).1
  · exact (C1_theorem.2 BackgroundState.init 5 _ (by decide)).2

/-- Claim C3 (corrected), counterexample: on the privileged per-tab
channel the suppression key does not include the source tag — after an
observation tagged "debugger" is delivered, the same coordinates tagged
"page_hook" (a distinct (lat, lon, source) signature) are suppressed with
no state update. -/
theorem C3_counterexample :
    (emitGeoMetadata BackgroundState.init 7
        ⟨some (.num 1), some (.num 2), none, none, "debugger"⟩).delivered
      = true ∧
    (emitGeoMetadata
        (emitGeoMetadata BackgroundState.init 7
          ⟨some (.num 1), some (.num 2), none, none, "debugger"⟩).state 7
        ⟨some (.num 1), some (.num 2), none, none, "page_hook"⟩).delivered
      = false ∧
    (emitGeoMetadata
        (emitGeoMetadata BackgroundState.init 7
          ⟨some (.num 1), some (.num 2), none, none, "debugger"⟩).state 7
        ⟨some (.num 1), some (.num 2), none, none, "page_hook"⟩).state =
      (emitGeoMetadata BackgroundState.init 7
        ⟨some (.num 1), some (.num 2), none, none, "debugger"⟩).state := by
  refine ⟨?_, ?_, ?_⟩ <;> decide

/-- Claim C3 (amended): per channel, exactly one notification is delivered
per distinct signature until a different signature is observed, and
resubmitting the identical signature is a no-op; but the suppression key
includes the source tag only on the page-context channel
("{lat:5dp}:{lon:5dp}:{source}"), while the privileged per-tab channel
keys on "{lat:5dp}:{lon:5dp}" alone. -/
theorem C3_theorem :
    (∀ (last : Option String) (la lo : JSNum) (ctx : String),
        la.isFinite = true → lo.isFinite = true →
        notifyCoordsUpdate
            (some (toFixedFive la ++ ":" ++ toFixedFive lo ++ ":" ++ ctx))
            la lo ctx =
          ⟨some (toFixedFive la ++ ":" ++ toFixedFive lo ++ ":" ++ ctx),
            false⟩ ∧
        (last ≠ some (toFixedFive la ++ ":" ++ toFixedFive lo ++ ":" ++ ctx) →
          notifyCoordsUpdate last la lo ctx =
            ⟨some (toFixedFive la ++ ":" ++ toFixedFive lo ++ ":" ++ ctx),
              true⟩)) ∧
    (∀ (st : BackgroundState) (tab : ℕ) (m : GeoMetadata),
        (alistGet st.tabCoordinateSignatures tab = some (geoSignature m) →
          emitGeoMetadata st tab m = ⟨st, false⟩) ∧
        (alistGet st.tabCoordinateSignatures tab ≠ some (geoSignature m) →
          (emitGeoMetadata st tab m).delivered = true ∧
          alistGet
              (emitGeoMetadata st tab m).state.tabCoordinateSignatures tab =
            some (geoSignature m))) := by
  constructor
  · intro last la lo ctx hla hlo
    constructor
    · simp [notifyCoordsUpdate, hla, hlo]
    · intro hne
      have hno : ¬ (some (toFixedFive la ++ ":" ++ toFixedFive lo ++ ":" ++ ctx)
          = last) := fun h => hne h.symm
      simp [notifyCoordsUpdate, hla, hlo, hno]
  · intro st tab m
    constructor
    · intro h
      have hcond : geoSignature m ≠ "" ∧
          some (geoSignature m) = alistGet st.tabCoordinateSignatures tab :=
        ⟨geoSignature_ne_empty m, h.symm⟩
      simp only [emitGeoMetadata, if_pos hcond]
    · intro h
      have hcond : ¬ (geoSignature m ≠ "" ∧
          some (geoSignature m) = alistGet st.tabCoordinateSignatures tab) := by
        rintro ⟨-, h2⟩
        exact h h2.symm
      simp only [emitGeoMetadata, if_neg hcond]
      exact ⟨by simp, by simp [alistGet_set]⟩

/-- Witness for C3 at concrete inputs: identical resubmission is a no-op
on both channels, and a fresh signature is delivered on the page-context
channel. -/
theorem C3_witness :
    notifyCoordsUpdate
        (some (toFixedFive (.num 1) ++ ":" ++ toFixedFive (.num 2) ++ ":" ++
          "geo_photo")) (.num 1) (.num 2) "geo_photo" =
      ⟨some (toFixedFive (.num 1) ++ ":" ++ toFixedFive (.num 2) ++ ":" ++
        "geo_photo"), false⟩ ∧
    notifyCoordsUpdate none (.num 1) (.num 2) "geo_photo" =
      ⟨some (toFixedFive (.num 1) ++ ":" ++ toFixedFive (.num 2) ++ ":" ++
        "geo_photo"), true⟩ ∧
    emitGeoMetadata ⟨[(4, geoSignature
        ⟨some (.num 1), some (.num 2), none, none, "debugger"⟩)], []⟩ 4
        ⟨some (.num 1), some (.num 2), none, none, "debugger"⟩ =
      ⟨⟨[(4, geoSignature
        ⟨some (.num 1), some (.num 2), none, none, "debugger"⟩)], []⟩,
        false⟩ := by
  refine ⟨(C3_theorem.1 none (.num 1) (.num 2) "geo_photo" rfl rfl).1,
    (C3_theorem.1 none (.num 1) (.num 2) "geo_photo" rfl rfl).2 (by decide),
    (C3_theorem.2 _ 4 _).1 ?_⟩
  simp [alistGet]

/-- Claim C5 (corrected), counterexample: the page-context hook's
`parseBody`, given the wrapper-less body "[1,2,3,4]", returns `null` even
though raw JSON parsing of the same body succeeds — it attempts no
fallback. -/
theorem C5_counterexample :
    (parseBody "[1,2,3,4]").isNone = true ∧
    (jsonParse "[1,2,3,4]").isSome = true := by
  constructor <;> rfl

/-- Claim C5 (amended): the page-context hook's `parseBody` (and the
content script's first-version `parseGeoPhotoResponse`) handle only the
wrapper format, returning `null` whenever the body does not start with
"/**/_callbacks____"; the raw-JSON fallback followed by the
first-`[`-to-last-`]` substring heuristic is implemented in the background
process's `parseGeoPayload` (and in the multi-tab content script's
`parseGeoPhotoResponse`). -/
theorem C5_theorem :
    (∀ body : String, jsStartsWith body CALLBACK_HEADER = false →
        parseBody body = none ∧ parseGeoPhotoResponseV1 body = none) ∧
    (∀ text : String, text ≠ "" →
        stripJSONPWrapper (jsTrim text) = jsTrim text →
        parseGeoPayload text =
          match jsonParse (jsTrim text) with
          | some v => some v
          | none => bracketSliceParse (jsTrim text)) := by
  constructor
  · intro body h
    constructor <;> simp [parseBody, parseGeoPhotoResponseV1, h]
  · intro text h1 h2
    simp only [parseGeoPayload, if_neg h1, h2]

/-- Witness for C5: the wrapper-less body "[9]" is rejected by the
page-context parsers, while the background parser resolves it through its
raw-JSON fallback chain. -/
theorem C5_witness :
    (parseBody "[9]" = none ∧ parseGeoPhotoResponseV1 "[9]" = none) ∧
    parseGeoPayload "[9]" =
      match jsonParse (jsTrim "[9]") with
      | some v => some v
      | none => bracketSliceParse (jsTrim "[9]") :=
  ⟨C5_theorem.1 "[9]" (by decide),
    C5_theorem.2 "[9]" (by decide) (by decide)⟩

/-- Claim C8 (confirmed): a save attempt answered with status 404 or an
error message containing "not found" clears `screenshotApiAvailable`, and
from then on every `saveCurrentScreenshot` call returns `null` without
capturing an image or contacting the backend; no operation resets the
flag. -/
theorem C8_theorem :
    (∀ (env : SaveEnv) (resp : ScreenshotResponse),
        env.captureOk = true →
        env.response = some resp →
        resp.success = false →
        (resp.status = some 404 ∨
          containsSub
              (jsToLower (resp.error.getD "Screenshot speichern fehlgeschlagen."))
              "not found" = true) →
        saveCurrentScreenshot true env = ⟨false, .disabled, true, true⟩) ∧
    (∀ envs : List SaveEnv,
        runSaves false envs =
          (false, envs.map (fun _ => ⟨false, .skipped, false, false⟩))) := by
  constructor
  · intro env resp hc hr hs hmatch
    rcases hmatch with h | h <;>
      simp [saveCurrentScreenshot, hc, hr, hs, h]
  · intro envs
    induction envs with
    | nil => rfl
    | cons env rest ih => simp [runSaves, saveCurrentScreenshot, ih]

/-- Witness for C8: a concrete 404 response disables the feature, and two
subsequent calls (one of which could otherwise succeed) both return `null`
with no capture and no backend contact. -/
theorem C8_witness :
    saveCurrentScreenshot true ⟨true, some ⟨false, some "Not Found", some 404⟩⟩
      = ⟨false, .disabled, true, true⟩ ∧
    runSaves false [⟨true, some ⟨true, none, none⟩⟩, ⟨false, none⟩] =
      (false, [⟨false, .skipped, false, false⟩,
        ⟨false, .skipped, false, false⟩]) :=
  ⟨C8_theorem.1 ⟨true, some ⟨false, some "Not Found", some 404⟩⟩
      ⟨false, some "Not Found", some 404⟩ rfl rfl rfl (Or.inl rfl),
    C8_theorem.2 [⟨true, some ⟨true, none, none⟩⟩, ⟨false, none⟩]⟩


/-- Claim C4 (corrected), counterexample: the scenario's synthetic body is
not well-formed — its bracket payload closes nine `]` against eight `[` —
so `JSON.parse` fails in every parser of the pipeline (JSONP slice, raw
body, bracket-slice fallback) and no structure is ever produced for either
extraction path, let alone one yielding {lat: 48.8566, lon: 2.3522}. -/
theorem C4_counterexample :
    (parseBody syntheticBody).isNone = true ∧
    (parseGeoPhotoResponseV1 syntheticBody).isNone = true ∧
    (parseGeoPhotoPayloadV2 syntheticBody).isNone = true ∧
    (parseGeoPayload syntheticBody).isNone = true := by
  refine ⟨?_, ?_, ?_, ?_⟩ <;> decide

/-- Claim C4 (amended): with the payload's unmatched ninth `]` removed the
body parses, but the standard fixed-index path yields nothing —
`root[5][0][1][0]` is the 2-element array `[null, [null, null, 48.8566,
2.3522]]`, so `location[2]` is undefined (and the window listener's
fixed-index variant also fails) — while the deep-search extraction, and
therefore `extractMetadataFromArray` through its fallback, yields
lat 48.8566, lon 2.3522 on both the privileged and the page-context
implementations. -/
theorem C4_theorem :
    syntheticParsed.map (fun v => (standardPathLat v, standardPathLon v)) =
      some (none, none) ∧
    syntheticParsed.bind windowListenerCoords = none ∧
    syntheticParsed.bind findCoordinates = some (48.8566, 2.3522) ∧
    syntheticParsed.bind findCoordinatesDeep = some (48.8566, 2.3522) ∧
    syntheticParsed.bind extractMetadataCoords = some (48.8566, 2.3522) := by
  have h48 : (48.8566 : ℚ) = mkRat 488566 10000 := by
    rw [Rat.mkRat_eq_div]
    norm_num
  have h23 : (2.3522 : ℚ) = mkRat 23522 10000 := by
    rw [Rat.mkRat_eq_div]
    norm_num
  refine ⟨by decide, by decide, ?_, ?_, ?_⟩ <;>
    · rw [h48, h23]
      decide

/-- Claim C9 (confirmed): `isInvalidImage` classifies any sufficiently
long base64 payload decoding to an all-zero buffer as invalid, and
classifies as valid any sufficiently long decodable payload whose
darkness sample has strictly fewer than 80 % bytes below 30 and whose
uniformity sample spans at least 5 distinct coarse brightness buckets. -/
theorem C9_theorem :
    (∀ (s : String) (bytes : List ℕ),
        1000 ≤ s.length →
        atobBytes (jsSlice s 0 10000) = some bytes →
        bytes ≠ [] →
        (∀ b ∈ bytes, b = 0) →
        isInvalidImage s = true) ∧
    (∀ (s : String) (bytes : List ℕ),
        1000 ≤ s.length →
        atobBytes (jsSlice s 0 10000) = some bytes →
        ((darknessSample bytes).filter (fun b => b < 30)).length * 5 <
          (darknessSample bytes).length * 4 →
        5 ≤ (brightnessBuckets bytes).length →
        isInvalidImage s = false) := by
  have hshort : ∀ s : String, 1000 ≤ s.length →
      (decide (s = "") || decide (s.length < 1000)) = false := by
    intro s hlen
    have h0 : s ≠ "" := by
      intro h
      rw [h] at hlen
      simp [String.length] at hlen
    simp [h0]
    omega
  constructor
  · intro s bytes hlen hdec hne hzero
    have hfilter : (darknessSample bytes).filter (fun b => b < 30) =
        darknessSample bytes := by
      apply List.filter_eq_self.mpr
      intro b hb
      have hb0 := hzero b (mem_everyNth 10 bytes b hb)
      simp [hb0]
    have hpos : 0 < (darknessSample bytes).length :=
      List.length_pos.mpr (everyNth_ne_nil 10 bytes hne)
    rw [isInvalidImage]
    rw [if_neg (by simp [hshort s hlen])]
    rw [hdec]
    dsimp only
    rw [hfilter]
    rw [if_pos ⟨hpos, by omega⟩]
  · intro s bytes hlen hdec hlow hbuckets
    rw [isInvalidImage]
    rw [if_neg (by simp [hshort s hlen])]
    rw [hdec]
    dsimp only
    rw [if_neg (by
      rintro ⟨-, hcontra⟩
      omega)]
    rw [if_neg (by omega)]

set_option maxRecDepth 8000 in
/-- Witness for C9: 1000 base64 characters of `A` decode to an all-zero
750-byte buffer and are classified invalid; a 1008-character payload
decoding to a 12-valued repeating texture (12 brightness buckets, about
33 % dark samples) is classified valid. -/
theorem C9_witness :
    isInvalidImage zeroImage = true ∧ isInvalidImage texturedImage = false := by
  have hzlen : zeroImage.length = 1000 := by
    simp [zeroImage, String.length]
  have htlen : texturedImage.length = 1008 := by
    simp [texturedImage, String.length, List.length_flatten,
      Function.comp]
  constructor
  · exact C9_theorem.1 zeroImage (List.replicate 750 0) (by omega)
      (by decide) (by simp)
      (fun b hb => (List.mem_replicate.mp hb).2)
  · exact C9_theorem.2 texturedImage texturedBytes (by omega) (by decide)
      (by decide) (by decide)


end GeoViz
